import Mathlib

/-!
Verification development for the `PollingBlockTracker` of eth-block-tracker.

The embedding follows `src/PollingBlockTracker.ts`. Durations are modelled as
rationals (JavaScript numbers under the operations the code performs: `||`
falsiness tests and division by 10). The pieces of the base class
`BaseBlockTracker` that the tracker relies on (listener bookkeeping,
`_newPotentialLatest`, `getLatestBlock`) are not part of the sources at hand;
those definitions are modelled from the specification and are marked as such
in their doc comments.
-/

/-- One second in milliseconds (`const sec = 1000`). -/
def sec : ℚ := 1000

/-- The options record accepted by the `PollingBlockTracker` constructor.
`none` models an absent (`undefined`) option.  The provider is an injected
capability whose internals are out of scope; only its presence matters to the
constructor, so it is modelled as `Option Unit`. -/
structure PollingBlockTrackerOptions where
  provider : Option Unit := none
  pollingInterval : Option ℚ := none
  retryTimeout : Option ℚ := none
  keepEventLoopActive : Option Bool := none
  setSkipCacheFlag : Option Bool := none
  blockResetDuration : Option ℚ := none

/-- The configuration a successfully constructed tracker holds:
`baseBlockResetDuration` is the value passed to the `super` constructor, the
rest are the private fields assigned in the constructor body. -/
structure PollingConfig where
  baseBlockResetDuration : Option ℚ
  pollingInterval : ℚ
  retryTimeout : ℚ
  keepEventLoopActive : Bool
  setSkipCacheFlag : Bool
deriving DecidableEq

/-- JavaScript `opt || deflt` for an optional number: `undefined` and `0` are
falsy, any other number is truthy. -/
def jsOrNum (opt : Option ℚ) (deflt : ℚ) : ℚ :=
  match opt with
  | none => deflt
  | some x => if x = 0 then deflt else x

/-- The `PollingBlockTracker` constructor.  Returns `Except.error` for the
synchronous throw when no provider is given; otherwise the resolved
configuration.  Mirrors lines 37-53 of `PollingBlockTracker.ts`:
the provider check comes before everything else, `blockResetDuration` is
forwarded to the base as `opts.blockResetDuration ?? opts.pollingInterval`
(nullish coalescing on the raw option), and the remaining fields use `||`
or `=== undefined` defaulting exactly as the code does. -/
def mkPollingBlockTracker (opts : PollingBlockTrackerOptions) :
    Except String PollingConfig :=
  match opts.provider with
  | none => Except.error "PollingBlockTracker - no provider specified."
  | some _ =>
    let pollingInterval := jsOrNum opts.pollingInterval (20 * sec)
    Except.ok
      { baseBlockResetDuration := opts.blockResetDuration.or opts.pollingInterval
        pollingInterval := pollingInterval
        retryTimeout := jsOrNum opts.retryTimeout (pollingInterval / 10)
        keepEventLoopActive := opts.keepEventLoopActive.getD true
        setSkipCacheFlag := opts.setSkipCacheFlag.getD false }

/-- The JSON-RPC request built by `_fetchLatestBlock`.  The random `id` is
produced by the out-of-scope id generator and is omitted; `skipCache := none`
models the absence of the `skipCache` key (the empty spread `{}`), while
`some true` models the spread of `\x7b skipCache: true \x7d`. -/
structure RpcRequest where
  jsonrpc : String
  method : String
  params : List String
  skipCache : Option Bool
deriving DecidableEq

/-- The request construction in `_fetchLatestBlock` (lines 95-101),
parameterised by the tracker's `_setSkipCacheFlag` field. -/
def buildFetchRequest (setSkipCacheFlag : Bool) : RpcRequest :=
  { jsonrpc := "2.0"
    method := "eth_blockNumber"
    params := []
    skipCache := if setSkipCacheFlag then some true else none }

/-- A provider response, as discriminated by `'error' in res`: either it
carries an error payload (of which `_fetchLatestBlock` reads `.message`) or a
`result` string. -/
inductive JsonRpcResponse where
  | withError (message : String)
  | withResult (result : String)
deriving DecidableEq

/-- The response handling of `_fetchLatestBlock` (lines 106-111): an error
payload becomes a thrown `Error` with the wrapped message, otherwise the
`result` is returned unchanged. -/
def fetchLatestBlockResult : JsonRpcResponse → Except String String
  | JsonRpcResponse.withError m =>
      Except.error
        ("PollingBlockTracker - encountered error fetching block:\n" ++ m)
  | JsonRpcResponse.withResult r => Except.ok r

/-- An operation on the tracker's listener ledger: subscribing or
unsubscribing a single listener for an event kind (`on`/`addListener`,
`off`/`removeListener`), or `removeAllListeners` with or without a kind.
Listener handles are modelled as natural numbers. -/
inductive LedgerOp where
  | subscribe (kind : String) (handle : Nat)
  | unsubscribe (kind : String) (handle : Nat)
  | removeAll (kind : Option String)

/-- Whether an event kind drives the poll loop: only `latest` and `sync` do. -/
def isDrivingKind (kind : String) : Bool :=
  kind == "latest" || kind == "sync"

/-- The observable listener-accounting state of a tracker: the registered
(kind, handle) pairs and the `isRunning()` flag. -/
structure TrackerSubState where
  listeners : List (String × Nat)
  running : Bool
deriving DecidableEq

/-- Combined number of currently registered `latest` and `sync` listeners. -/
def drivingCount (ls : List (String × Nat)) : Nat :=
  ls.countP (fun p => isDrivingKind p.1)

/-- Remove the first occurrence of a (kind, handle) pair, as
`removeListener` removes one matching registration. -/
def removeOne : List (String × Nat) → String × Nat → List (String × Nat)
  | [], _ => []
  | p :: rest, q => if p = q then rest else p :: removeOne rest q

/-- Modelled from the spec: the `BaseBlockTracker` listener bookkeeping is not
among the sources at hand; per the spec, adding or removing a listener for
`latest` or `sync` synchronously notifies the lifecycle controller, which
moves between Stopped and Running according to whether the combined driving
listener count is nonzero.  Hence after every ledger operation the running
flag equals `drivingCount ≠ 0`. -/
def applyLedgerOp (st : TrackerSubState) (op : LedgerOp) : TrackerSubState :=
  let ls :=
    match op with
    | LedgerOp.subscribe k h => (k, h) :: st.listeners
    | LedgerOp.unsubscribe k h => removeOne st.listeners (k, h)
    | LedgerOp.removeAll none => []
    | LedgerOp.removeAll (some k) => st.listeners.filter (fun p => p.1 != k)
  { listeners := ls, running := drivingCount ls != 0 }

/-- Apply a sequence of ledger operations in order. -/
def applyLedgerOps (st : TrackerSubState) (ops : List LedgerOp) :
    TrackerSubState :=
  ops.foldl applyLedgerOp st

/-- A freshly constructed tracker: no listeners, not running. -/
def initialSubState : TrackerSubState :=
  { listeners := [], running := false }

/-- A hexadecimal digit's value; non-hex characters contribute 0. -/
def hexCharVal (c : Char) : Nat :=
  if '0' ≤ c ∧ c ≤ '9' then c.toNat - '0'.toNat
  else if 'a' ≤ c ∧ c ≤ 'f' then c.toNat - 'a'.toNat + 10
  else if 'A' ≤ c ∧ c ≤ 'F' then c.toNat - 'A'.toNat + 10
  else 0

/-- Drop a leading `0x` from a character list. -/
def dropHexMark : List Char → List Char
  | '0' :: 'x' :: rest => rest
  | l => l

/-- Modelled from the spec: block values are opaque numeric strings and
comparison between tracked values is numeric comparison on the integer the
string encodes (hexadecimal with an optional `0x` mark), not lexicographic
string comparison. -/
def hexValue (s : String) : Nat :=
  (dropHexMark s.data).foldl (fun acc c => acc * 16 + hexCharVal c) 0

/-- The tracker state the poll loop reads and writes: the `_isRunning` flag
(written by the base class's lifecycle controller, read by the loop) and the
cached current block (`null` when unset or evicted). -/
structure TrackerState where
  running : Bool
  currentBlock : Option String
deriving DecidableEq

/-- A JavaScript error value as consumed by the catch block of
`_synchronize`: `error.stack ?? error.message ?? error`. -/
structure JsError where
  stack : Option String
  message : Option String
  raw : String

/-- The description the catch block extracts from the cause:
its stack when available, else its message, else the raw value. -/
def JsError.describe (e : JsError) : String :=
  match e.stack with
  | some s => s
  | none =>
    match e.message with
    | some m => m
    | none => e.raw

/-- An observable action of one poll-loop iteration, in execution order:
the fetch attempt, the emissions, and the sleep with its duration. -/
inductive LoopAct where
  | fetchAttempt
  | emitSync (oldBlock : Option String) (newBlock : String)
  | emitLatest (newBlock : String)
  | emitWaiting
  | emitError (message : String)
  | sleep (duration : ℚ)
deriving DecidableEq

/-- Whether an action is a `sync` or `latest` emission. -/
def isDrivingEmit : LoopAct → Bool
  | LoopAct.emitSync _ _ => true
  | LoopAct.emitLatest _ => true
  | _ => false

/-- Number of `error` emissions in an action list. -/
def countErrorEmits (l : List LoopAct) : Nat :=
  l.countP (fun a => match a with | LoopAct.emitError _ => true | _ => false)

/-- Modelled from the spec: `BaseBlockTracker._newPotentialLatest` is not
among the sources at hand; per the spec, on a fetched value the cache is
compared numerically and updated only when it is null or the new value is
strictly greater, in which case `sync` (with old and new value) and then
`latest` (with the new value) are emitted; otherwise nothing is emitted. -/
def newPotentialLatest (st : TrackerState) (newBlock : String) :
    TrackerState × List LoopAct :=
  match st.currentBlock with
  | some cur =>
    if hexValue newBlock ≤ hexValue cur then (st, [])
    else
      ({ st with currentBlock := some newBlock },
        [LoopAct.emitSync (some cur) newBlock, LoopAct.emitLatest newBlock])
  | none =>
    ({ st with currentBlock := some newBlock },
      [LoopAct.emitSync none newBlock, LoopAct.emitLatest newBlock])

/-- The configuration fields the poll loop reads. -/
structure Config where
  pollingInterval : ℚ
  retryTimeout : ℚ
  keepEventLoopActive : Bool
  setSkipCacheFlag : Bool

/-- The environment's contribution to one iteration of `_synchronize`: the
outcome of the fetch (`_updateLatestBlock` resolving or rejecting), and
whether the lifecycle controller revokes `_isRunning` while the iteration is
suspended in the fetch, respectively in the sleep.  These are the iteration's
suspension points; the loop itself never writes `_isRunning`. -/
structure IterEnv where
  fetchResult : Except JsError String
  revokeDuringFetch : Bool
  revokeDuringSleep : Bool

/-- One iteration body of `_synchronize` (lines 67-85), to be entered only
after the `while (this._isRunning)` check succeeded.  On a successful fetch:
cache comparison and conditional `sync`/`latest` emission, then the
`_waitingForNextIteration` emission, then the sleep for `pollingInterval`.
On a rejected fetch: wrap the cause, emit `error`, sleep for `retryTimeout`.
Nothing in the body consults `_isRunning`; revocations only change the flag
the next loop check will read. -/
def syncStep (cfg : Config) (st : TrackerState) (env : IterEnv) :
    TrackerState × List LoopAct :=
  let st1 : TrackerState :=
    { st with running := st.running && !env.revokeDuringFetch }
  match env.fetchResult with
  | Except.ok v =>
    let p := newPotentialLatest st1 v
    let st2 : TrackerState :=
      { p.1 with running := p.1.running && !env.revokeDuringSleep }
    (st2, LoopAct.fetchAttempt :: p.2
        ++ [LoopAct.emitWaiting, LoopAct.sleep cfg.pollingInterval])
  | Except.error e =>
    let st2 : TrackerState :=
      { st1 with running := st1.running && !env.revokeDuringSleep }
    (st2,
      [LoopAct.fetchAttempt,
        LoopAct.emitError
          ("PollingBlockTracker - encountered an error while attempting to update latest block:\n"
            ++ e.describe),
        LoopAct.sleep cfg.retryTimeout])

/-- The `_synchronize` loop: while `_isRunning`, run one iteration body; the
flag is consulted exactly once per iteration, at the top of the loop.  The
list of `IterEnv`s is the schedule of fetch outcomes and revocations the
environment supplies; an empty schedule ends the trace. -/
def synchronize (cfg : Config) : TrackerState → List IterEnv →
    TrackerState × List LoopAct
  | st, [] => (st, [])
  | st, env :: rest =>
    if st.running then
      let p := syncStep cfg st env
      let q := synchronize cfg p.1 rest
      (q.1, p.2 ++ q.2)
    else (st, [])

/-- `_updateLatestBlock` (lines 88-92): fetch, then hand the value to
`_newPotentialLatest`; a rejected fetch propagates. -/
def updateLatestBlock (st : TrackerState) (fetchResult : Except JsError String) :
    Except JsError (TrackerState × List LoopAct) :=
  match fetchResult with
  | Except.error e => Except.error e
  | Except.ok v => Except.ok (newPotentialLatest st v)

/-- `checkForLatestBlock` (lines 56-59): `await _updateLatestBlock()`, then
`return await getLatestBlock()`.  A rejection of the fetch propagates to the
caller with no emission.  The `getLatestBlock` of the base class is modelled
from the spec: it returns the cached value immediately when the cache is
non-null (which is always the case after a successful update); the returned
`Option String` is that cache read. -/
def checkForLatestBlock (st : TrackerState)
    (fetchResult : Except JsError String) :
    Except JsError (Option String × TrackerState) × List LoopAct :=
  match fetchResult with
  | Except.error e => (Except.error e, [])
  | Except.ok v =>
    let p := newPotentialLatest st v
    (Except.ok (p.1.currentBlock, p.1), p.2)

/-- Concrete options for evaluating the constructor defaults: a provider and
nothing else. -/
def c7opts : PollingBlockTrackerOptions := { provider := some () }

/-- The configuration the constructor resolves for `c7opts`. -/
def c7cfg : PollingConfig :=
  { baseBlockResetDuration := none
    pollingInterval := 20 * sec
    retryTimeout := 20 * sec / 10
    keepEventLoopActive := true
    setSkipCacheFlag := false }

/-- Concrete options passing an explicit zero for every duration option. -/
def c10opts : PollingBlockTrackerOptions :=
  { provider := some ()
    pollingInterval := some 0
    retryTimeout := some 0
    blockResetDuration := some 0 }

/-- The configuration the constructor resolves for `c10opts`. -/
def c10cfg : PollingConfig :=
  { baseBlockResetDuration := some 0
    pollingInterval := 20 * sec
    retryTimeout := 20 * sec / 10
    keepEventLoopActive := true
    setSkipCacheFlag := false }

/-- A concrete loop configuration for evaluating single iterations. -/
def c3cfg : Config :=
  { pollingInterval := 100
    retryTimeout := 10
    keepEventLoopActive := true
    setSkipCacheFlag := false }

/-- A running tracker with an empty cache. -/
def c3st : TrackerState := { running := true, currentBlock := none }

/-- A concrete fetch failure carrying only a message. -/
def c3err : JsError := { stack := none, message := some "boom", raw := "boom" }

/-- A concrete iteration whose fetch rejects and in which the running state
is never revoked. -/
def c3env : IterEnv :=
  { fetchResult := Except.error c3err
    revokeDuringFetch := false
    revokeDuringSleep := false }

/-- A concrete loop configuration for the revocation trace. -/
def c9cfg : Config :=
  { pollingInterval := 100
    retryTimeout := 10
    keepEventLoopActive := true
    setSkipCacheFlag := false }

/-- A running tracker with an empty cache, about to be revoked mid-fetch. -/
def c9st : TrackerState := { running := true, currentBlock := none }

/-- A concrete iteration whose fetch succeeds with block `0x1` and during
whose fetch the lifecycle controller revokes the running state. -/
def c9env : IterEnv :=
  { fetchResult := Except.ok "0x1"
    revokeDuringFetch := true
    revokeDuringSleep := false }

/-- A stopped tracker state, for evaluating the loop's top-of-iteration
check. -/
def c9stopped : TrackerState := { running := false, currentBlock := none }

/-- Helper: after any single ledger operation, the running flag equals the
nonzero test on the driving listener count. -/
theorem applyLedgerOp_running_eq (st : TrackerSubState) (op : LedgerOp) :
    (applyLedgerOp st op).running =
      (drivingCount (applyLedgerOp st op).listeners != 0) := rfl

/-- Helper: the running/count invariant is preserved by any operation
sequence. -/
theorem applyLedgerOps_running_eq (ops : List LedgerOp) (st : TrackerSubState)
    (h : st.running = (drivingCount st.listeners != 0)) :
    (applyLedgerOps st ops).running =
      (drivingCount (applyLedgerOps st ops).listeners != 0) := by
  induction ops generalizing st with
  | nil => exact h
  | cons op rest ih => exact ih (applyLedgerOp st op) (applyLedgerOp_running_eq st op)

/-- Helper: adding a listener for a non-driving kind leaves the driving
listener count unchanged. -/
theorem drivingCount_cons_nondriving (k : String) (h : Nat)
    (ls : List (String × Nat)) (hk : isDrivingKind k = false) :
    drivingCount ((k, h) :: ls) = drivingCount ls := by
  simp [drivingCount, List.countP_cons, hk]

/-- Helper: removing one listener of a non-driving kind leaves the driving
listener count unchanged. -/
theorem drivingCount_removeOne (ls : List (String × Nat)) (k : String) (h : Nat)
    (hk : isDrivingKind k = false) :
    drivingCount (removeOne ls (k, h)) = drivingCount ls := by
  induction ls with
  | nil => rfl
  | cons p rest ih =>
    by_cases hp : p = (k, h)
    · subst hp
      simp [removeOne, drivingCount, List.countP_cons, hk]
    · simp only [removeOne, if_neg hp, drivingCount, List.countP_cons]
      simp only [drivingCount] at ih
      omega

/-- Claim C6: for every options object without a provider (including no
options at all), the constructor throws synchronously with the message
`PollingBlockTracker - no provider specified.` before any other
initialization, so no configuration is ever produced and the tracker never
enters any running state. -/
theorem c6_no_provider_throws (opts : PollingBlockTrackerOptions) :
    mkPollingBlockTracker { opts with provider := none } =
      Except.error "PollingBlockTracker - no provider specified." := rfl

/-- Claim C4: for every provider response, a response carrying an error
payload makes `_fetchLatestBlock` throw an error whose message is
`PollingBlockTracker - encountered error fetching block:` followed by a
newline and the payload's message, and any other response makes it return
the `result` value unchanged. -/
theorem c4_fetch_response_handling :
    (∀ m, fetchLatestBlockResult (JsonRpcResponse.withError m) =
      Except.error
        ("PollingBlockTracker - encountered error fetching block:\n" ++ m)) ∧
    (∀ r, fetchLatestBlockResult (JsonRpcResponse.withResult r) =
      Except.ok r) :=
  ⟨fun _ => rfl, fun _ => rfl⟩

/-- Claim C8: every fetch request has jsonrpc `2.0`, method
`eth_blockNumber` and empty params, carries `skipCache: true` exactly when
the tracker was constructed with `setSkipCacheFlag: true`, and contains no
`skipCache` key at all when the flag is false or absent. -/
theorem c8_request_shape (flag : Bool) :
    (buildFetchRequest flag).jsonrpc = "2.0" ∧
    (buildFetchRequest flag).method = "eth_blockNumber" ∧
    (buildFetchRequest flag).params = [] ∧
    (buildFetchRequest flag).skipCache = (if flag then some true else none) ∧
    ((buildFetchRequest flag).skipCache = some true ↔ flag = true) := by
  cases flag <;> exact ⟨rfl, rfl, rfl, rfl, by simp [buildFetchRequest]⟩

/-- Witness for C8 at both concrete flag values. -/
theorem c8_request_shape_witness :
    (buildFetchRequest true).skipCache = some true ∧
    (buildFetchRequest false).skipCache = none :=
  ⟨(c8_request_shape true).2.2.2.2.mpr rfl, (c8_request_shape false).2.2.2.1⟩

/-- Claim C7: for every construction with a valid provider, an unspecified
`pollingInterval` resolves to 20000 ms, an unspecified `retryTimeout` to
a tenth of the resolved polling interval, an unspecified
`keepEventLoopActive` to true, an unspecified `setSkipCacheFlag` to false,
and an unspecified `blockResetDuration` is forwarded to the base tracker as
the given `pollingInterval` option. -/
theorem c7_defaults (opts : PollingBlockTrackerOptions) (cfg : PollingConfig)
    (hok : mkPollingBlockTracker opts = Except.ok cfg) :
    (opts.pollingInterval = none → cfg.pollingInterval = 20000) ∧
    (opts.retryTimeout = none →
      cfg.retryTimeout = cfg.pollingInterval / 10) ∧
    (opts.keepEventLoopActive = none → cfg.keepEventLoopActive = true) ∧
    (opts.setSkipCacheFlag = none → cfg.setSkipCacheFlag = false) ∧
    (opts.blockResetDuration = none →
      cfg.baseBlockResetDuration = opts.pollingInterval) := by
  rcases opts with ⟨prov, pi, rt, kela, ssc, brd⟩
  cases prov with
  | none => simp [mkPollingBlockTracker] at hok
  | some u =>
    simp only [mkPollingBlockTracker, Except.ok.injEq] at hok
    subst hok
    refine ⟨?_, ?_, ?_, ?_, ?_⟩ <;> intro h <;> subst h
    · simp [jsOrNum, sec]
      norm_num
    · rfl
    · rfl
    · rfl
    · rfl

/-- Witness for C7: the constructor applied to options holding only a
provider resolves every default as claimed. -/
theorem c7_defaults_witness :
    mkPollingBlockTracker c7opts = Except.ok c7cfg ∧
    c7cfg.pollingInterval = 20000 ∧
    c7cfg.retryTimeout = c7cfg.pollingInterval / 10 ∧
    c7cfg.keepEventLoopActive = true ∧
    c7cfg.setSkipCacheFlag = false ∧
    c7cfg.baseBlockResetDuration = c7opts.pollingInterval := by
  have h := c7_defaults c7opts c7cfg rfl
  exact ⟨rfl, h.1 rfl, h.2.1 rfl, h.2.2.1 rfl, h.2.2.2.1 rfl, h.2.2.2.2 rfl⟩

/-- Claim C10: a constructed tracker given `pollingInterval: 0` or
`retryTimeout: 0` silently replaces the zero with the respective default
(20000 ms, resp. a tenth of the resolved polling interval) because those
options are tested for falsiness, whereas an explicit
`blockResetDuration: 0` is forwarded unchanged to the base tracker because
that option is tested only against null/undefined. -/
theorem c10_zero_durations (opts : PollingBlockTrackerOptions)
    (cfg : PollingConfig) (hok : mkPollingBlockTracker opts = Except.ok cfg) :
    (opts.pollingInterval = some 0 → cfg.pollingInterval = 20000) ∧
    (opts.retryTimeout = some 0 →
      cfg.retryTimeout = cfg.pollingInterval / 10) ∧
    (opts.blockResetDuration = some 0 →
      cfg.baseBlockResetDuration = some 0) := by
  rcases opts with ⟨prov, pi, rt, kela, ssc, brd⟩
  cases prov with
  | none => simp [mkPollingBlockTracker] at hok
  | some u =>
    simp only [mkPollingBlockTracker, Except.ok.injEq] at hok
    subst hok
    refine ⟨?_, ?_, ?_⟩ <;> intro h <;> subst h
    · simp [jsOrNum, sec]
      norm_num
    · rfl
    · rfl

/-- Witness for C10: explicit zeros for all three duration options. -/
theorem c10_zero_durations_witness :
    mkPollingBlockTracker c10opts = Except.ok c10cfg ∧
    c10cfg.pollingInterval = 20000 ∧
    c10cfg.retryTimeout = c10cfg.pollingInterval / 10 ∧
    c10cfg.baseBlockResetDuration = some 0 := by
  have h := c10_zero_durations c10opts c10cfg rfl
  exact ⟨rfl, h.1 rfl, h.2.1 rfl, h.2.2 rfl⟩

/-- Helper: removing all listeners of a non-driving kind leaves the driving
listener count unchanged. -/
theorem drivingCount_filter_nondriving (ls : List (String × Nat)) (k : String)
    (hk : isDrivingKind k = false) :
    drivingCount (ls.filter (fun p => p.1 != k)) = drivingCount ls := by
  induction ls with
  | nil => rfl
  | cons p rest ih =>
    simp only [drivingCount] at ih ⊢
    by_cases hp : p.1 = k
    · have hcond : (p.1 != k) = false := by rw [hp]; exact bne_self_eq_false k
      have hnd : isDrivingKind p.1 = false := by rw [hp]; exact hk
      rw [List.filter_cons, hcond, if_neg (by simp), List.countP_cons, ih]
      simp [hnd]
    · have hcond : (p.1 != k) = true := by simpa [bne_iff_ne] using hp
      rw [List.filter_cons, hcond, if_pos rfl, List.countP_cons,
        List.countP_cons, ih]

/-- Claim C1: for every sequence of subscribe/unsubscribe operations (with no
in-flight on-demand fetch), `isRunning()` is true exactly when the combined
number of registered `latest` and `sync` listeners is nonzero; and adding or
removing listeners for any other event kind — one at a time or via
`removeAllListeners(kind)` — never changes `isRunning()`. -/
theorem c1_isRunning_iff_driving (ops : List LedgerOp) :
    ((applyLedgerOps initialSubState ops).running = true ↔
      drivingCount (applyLedgerOps initialSubState ops).listeners ≠ 0) ∧
    (∀ k h, isDrivingKind k = false →
      (applyLedgerOp (applyLedgerOps initialSubState ops)
        (LedgerOp.subscribe k h)).running =
          (applyLedgerOps initialSubState ops).running ∧
      (applyLedgerOp (applyLedgerOps initialSubState ops)
        (LedgerOp.unsubscribe k h)).running =
          (applyLedgerOps initialSubState ops).running ∧
      (applyLedgerOp (applyLedgerOps initialSubState ops)
        (LedgerOp.removeAll (some k))).running =
          (applyLedgerOps initialSubState ops).running) := by
  have hinv := applyLedgerOps_running_eq ops initialSubState rfl
  constructor
  · rw [hinv]
    exact bne_iff_ne
  · intro k h hk
    refine ⟨?_, ?_, ?_⟩
    · show (drivingCount ((k, h) :: (applyLedgerOps initialSubState ops).listeners) != 0) =
        (applyLedgerOps initialSubState ops).running
      rw [drivingCount_cons_nondriving k h _ hk]
      exact hinv.symm
    · show (drivingCount (removeOne (applyLedgerOps initialSubState ops).listeners (k, h)) != 0) =
        (applyLedgerOps initialSubState ops).running
      rw [drivingCount_removeOne _ k h hk]
      exact hinv.symm
    · show (drivingCount ((applyLedgerOps initialSubState ops).listeners.filter
          (fun p => p.1 != k)) != 0) =
        (applyLedgerOps initialSubState ops).running
      rw [drivingCount_filter_nondriving _ k hk]
      exact hinv.symm

/-- Witness for C1: after subscribing one `latest` listener, the tracker is
running, and subscribing then unsubscribing a `somethingElse` listener does
not change `isRunning()`. -/
theorem c1_isRunning_iff_driving_witness :
    ((applyLedgerOps initialSubState [LedgerOp.subscribe "latest" 0]).running = true ↔
      drivingCount (applyLedgerOps initialSubState
        [LedgerOp.subscribe "latest" 0]).listeners ≠ 0) ∧
    (applyLedgerOp (applyLedgerOps initialSubState [LedgerOp.subscribe "latest" 0])
      (LedgerOp.subscribe "somethingElse" 1)).running =
        (applyLedgerOps initialSubState [LedgerOp.subscribe "latest" 0]).running ∧
    (applyLedgerOp (applyLedgerOps initialSubState [LedgerOp.subscribe "latest" 0])
      (LedgerOp.unsubscribe "somethingElse" 1)).running =
        (applyLedgerOps initialSubState [LedgerOp.subscribe "latest" 0]).running := by
  have h := c1_isRunning_iff_driving [LedgerOp.subscribe "latest" 0]
  have h2 := h.2 "somethingElse" 1 (by decide)
  exact ⟨h.1, h2.1, h2.2.1⟩

/-- Helper: a fetched value numerically at most the cached one leaves
`_newPotentialLatest` without an update and without emissions. -/
theorem newPotentialLatest_not_greater (st : TrackerState) (v cur : String)
    (hcur : st.currentBlock = some cur) (hle : hexValue v ≤ hexValue cur) :
    newPotentialLatest st v = (st, []) := by
  rcases st with ⟨run, cb⟩
  cases cb with
  | none => simp at hcur
  | some c =>
    have hc : c = cur := by simpa using hcur
    subst hc
    simp [newPotentialLatest, hle]

/-- Claim C2: the cached current block is only ever overwritten by a strictly
greater value (comparing the integers the strings encode) or left unchanged;
a fetch returning a value numerically at most the cached one leaves the cache
unchanged and emits no `sync`/`latest` — both at the `_newPotentialLatest`
level and across a whole poll-loop iteration. -/
theorem c2_cache_monotone :
    (∀ (st : TrackerState) (v cur : String), st.currentBlock = some cur →
      hexValue v ≤ hexValue cur → newPotentialLatest st v = (st, [])) ∧
    (∀ (st : TrackerState) (v : String),
      (newPotentialLatest st v).1 = st ∨
      ((newPotentialLatest st v).1.currentBlock = some v ∧
        ∀ cur, st.currentBlock = some cur → hexValue cur < hexValue v)) ∧
    (∀ (cfg : Config) (st : TrackerState) (env : IterEnv) (v cur : String),
      env.fetchResult = Except.ok v → st.currentBlock = some cur →
      hexValue v ≤ hexValue cur →
      (syncStep cfg st env).1.currentBlock = st.currentBlock ∧
      (syncStep cfg st env).2.filter isDrivingEmit = []) := by
  refine ⟨newPotentialLatest_not_greater, ?_, ?_⟩
  · intro st v
    rcases st with ⟨run, cb⟩
    cases cb with
    | none =>
      right
      exact ⟨rfl, fun cur hc => by simp at hc⟩
    | some c =>
      by_cases hle : hexValue v ≤ hexValue c
      · left
        simp [newPotentialLatest, hle]
      · right
        constructor
        · simp [newPotentialLatest, hle]
        · intro cur hc
          have : c = cur := by simpa using hc
          subst this
          exact Nat.lt_of_not_le hle
  · intro cfg st env v cur hfr hcur hle
    rcases env with ⟨fr, rdf, rds⟩
    have hfr' : fr = Except.ok v := hfr
    subst hfr'
    have hnp :
        newPotentialLatest { st with running := st.running && !rdf } v =
          ({ st with running := st.running && !rdf }, []) :=
      newPotentialLatest_not_greater _ v cur hcur hle
    constructor
    · show (newPotentialLatest { st with running := st.running && !rdf } v).1.currentBlock =
        st.currentBlock
      rw [hnp]
    · show (LoopAct.fetchAttempt ::
          (newPotentialLatest { st with running := st.running && !rdf } v).2
          ++ [LoopAct.emitWaiting, LoopAct.sleep cfg.pollingInterval]).filter isDrivingEmit = []
      rw [hnp]
      rfl

/-- Witness for C2: a cached block `0x2` and a late-arriving fetch of `0x1`
leave the cache unchanged and emit nothing. -/
theorem c2_cache_monotone_witness :
    newPotentialLatest { running := true, currentBlock := some "0x2" } "0x1" =
      ({ running := true, currentBlock := some "0x2" }, []) :=
  c2_cache_monotone.1 { running := true, currentBlock := some "0x2" } "0x1" "0x2"
    rfl (by decide)

/-- Claim C3: every fetch failure inside the standing loop is caught: the
iteration emits exactly one `error` event whose message is the context
message followed by the cause's stack when available, else its message, else
the raw value, then sleeps for `retryTimeout` (not `pollingInterval`), leaves
the cache untouched, stays running (absent a revocation), and the loop goes
on to the next iteration — no fetch error terminates it. -/
theorem c3_error_iteration (cfg : Config) (st : TrackerState) (env : IterEnv)
    (e : JsError) (rest : List IterEnv)
    (hrun : st.running = true) (hfr : env.fetchResult = Except.error e)
    (hrdf : env.revokeDuringFetch = false)
    (hrds : env.revokeDuringSleep = false) :
    (syncStep cfg st env).2 =
      [LoopAct.fetchAttempt,
        LoopAct.emitError
          ("PollingBlockTracker - encountered an error while attempting to update latest block:\n"
            ++ e.describe),
        LoopAct.sleep cfg.retryTimeout] ∧
    countErrorEmits (syncStep cfg st env).2 = 1 ∧
    (syncStep cfg st env).1.running = true ∧
    (syncStep cfg st env).1.currentBlock = st.currentBlock ∧
    synchronize cfg st (env :: rest) =
      ((synchronize cfg (syncStep cfg st env).1 rest).1,
        (syncStep cfg st env).2 ++ (synchronize cfg (syncStep cfg st env).1 rest).2) := by
  rcases env with ⟨fr, rdf, rds⟩
  have hfr' : fr = Except.error e := hfr
  have hrdf' : rdf = false := hrdf
  have hrds' : rds = false := hrds
  subst hfr' hrdf' hrds'
  refine ⟨rfl, rfl, ?_, rfl, ?_⟩
  · show ((st.running && !false) && !false) = true
    simp [hrun]
  · show synchronize cfg st
        (⟨Except.error e, false, false⟩ :: rest) = _
    rw [synchronize, if_pos (by rw [hrun])]

/-- Witness for C3 at a concrete failing iteration: one `error` emission,
and the loop is still running afterwards. -/
theorem c3_error_iteration_witness :
    countErrorEmits (syncStep c3cfg c3st c3env).2 = 1 ∧
    (syncStep c3cfg c3st c3env).1.running = true ∧
    (syncStep c3cfg c3st c3env).2 =
      [LoopAct.fetchAttempt,
        LoopAct.emitError
          ("PollingBlockTracker - encountered an error while attempting to update latest block:\n"
            ++ c3err.describe),
        LoopAct.sleep c3cfg.retryTimeout] := by
  have h := c3_error_iteration c3cfg c3st c3env c3err [] rfl rfl rfl rfl
  exact ⟨h.2.1, h.2.2.1, h.1⟩

/-- Claim C5: `checkForLatestBlock` run against a failing fetch rejects with
the failure itself, propagated to the caller, and emits nothing (in
particular no `error` event); on success it performs one fetch-and-update
cycle and returns the cached latest block, which is then always present. -/
theorem c5_checkForLatestBlock :
    (∀ (st : TrackerState) (e : JsError),
      checkForLatestBlock st (Except.error e) = (Except.error e, [])) ∧
    (∀ (st : TrackerState) (v : String),
      checkForLatestBlock st (Except.ok v) =
        (Except.ok ((newPotentialLatest st v).1.currentBlock,
          (newPotentialLatest st v).1), (newPotentialLatest st v).2) ∧
      ∃ b, (newPotentialLatest st v).1.currentBlock = some b) := by
  refine ⟨fun st e => rfl, fun st v => ⟨rfl, ?_⟩⟩
  rcases st with ⟨run, cb⟩
  cases cb with
  | none => exact ⟨v, rfl⟩
  | some c =>
    by_cases hle : hexValue v ≤ hexValue c
    · exact ⟨c, by simp [newPotentialLatest, hle]⟩
    · exact ⟨v, by simp [newPotentialLatest, hle]⟩

/-- Claim C9 counterexample: in a concrete iteration whose fetch succeeds
with `0x1` and during whose fetch the running state is revoked — i.e. the
revocation happens before the iteration's sleep — the iteration does not
exit: it still writes the cache, emits `sync`, `latest` and
`_waitingForNextIteration`, and sleeps for the polling interval.  This
refutes the claim that the running state is rechecked before the sleep and
that once revoked the iteration performs no further cache write or
emission. -/
theorem c9_revocation_mid_iteration_counterexample :
    c9st.running = true ∧
    c9env.revokeDuringFetch = true ∧
    (syncStep c9cfg c9st c9env).1.currentBlock ≠ c9st.currentBlock ∧
    (syncStep c9cfg c9st c9env).2.filter isDrivingEmit ≠ [] ∧
    (syncStep c9cfg c9st c9env).2 =
      [LoopAct.fetchAttempt, LoopAct.emitSync none "0x1",
        LoopAct.emitLatest "0x1", LoopAct.emitWaiting,
        LoopAct.sleep 100] := by
  refine ⟨rfl, rfl, ?_, ?_, ?_⟩ <;> decide

/-- Claim C9 (amended): the loop consults the running state exactly once per
iteration, at the top of the loop — equivalently after each sleep and before
each fetch; once a check observes the revoked state, the loop exits with no
further fetch, cache write or emission, and in particular a revocation
during a sleep is caught before the next iteration performs anything.  (A
revocation during the fetch, by contrast, does not cut the ongoing iteration
short, as the counterexample shows.) -/
theorem c9_boundary_checks :
    (∀ (cfg : Config) (st : TrackerState) (envs : List IterEnv),
      st.running = false → synchronize cfg st envs = (st, [])) ∧
    (∀ (cfg : Config) (st : TrackerState) (env : IterEnv)
        (rest : List IterEnv),
      st.running = true → env.revokeDuringSleep = true →
      synchronize cfg st (env :: rest) =
        ((syncStep cfg st env).1, (syncStep cfg st env).2)) := by
  have hstop : ∀ (cfg : Config) (st : TrackerState) (envs : List IterEnv),
      st.running = false → synchronize cfg st envs = (st, []) := by
    intro cfg st envs h
    cases envs with
    | nil => rfl
    | cons env rest => rw [synchronize, if_neg (by rw [h]; simp)]
  refine ⟨hstop, ?_⟩
  intro cfg st env rest hrun hrds
  have hnotrun : (syncStep cfg st env).1.running = false := by
    rcases env with ⟨fr, rdf, rds⟩
    have hrds' : rds = true := hrds
    subst hrds'
    cases fr with
    | error e => show ((st.running && !rdf) && !true) = false; simp
    | ok v =>
      show ((newPotentialLatest { st with running := st.running && !rdf } v).1.running
        && !true) = false
      simp
  rw [synchronize, if_pos (by rw [hrun])]
  simp [hstop cfg _ rest hnotrun]

/-- Witness for C9 (amended): a stopped tracker processes no iteration at
all, and a running tracker whose single iteration is revoked during its
sleep stops right after that iteration. -/
theorem c9_boundary_checks_witness :
    synchronize c9cfg c9stopped [c9env] = (c9stopped, []) ∧
    synchronize c9cfg c9st
        [{ fetchResult := Except.ok "0x1", revokeDuringFetch := false,
           revokeDuringSleep := true }] =
      ((syncStep c9cfg c9st
          { fetchResult := Except.ok "0x1", revokeDuringFetch := false,
            revokeDuringSleep := true }).1,
        (syncStep c9cfg c9st
          { fetchResult := Except.ok "0x1", revokeDuringFetch := false,
            revokeDuringSleep := true }).2) :=
  ⟨c9_boundary_checks.1 c9cfg c9stopped [c9env] rfl,
    c9_boundary_checks.2 c9cfg c9st
      { fetchResult := Except.ok "0x1", revokeDuringFetch := false,
        revokeDuringSleep := true } [] rfl rfl⟩
